import Mathlib

/-!
# TestStoreApi — shallow embedding and verification

This file embeds the authentication middleware, the per-identity shopping
cart, and the checkout/payment state machine of the TestStoreApi repository
(Node/Express services), and proves properties of the embedded handlers.

Two storefront backends exist in the repository:

* `BackendApi` — the backend in `backend-api/index.js` (source file
  `src/unnamed/part_004`): local token comparison, no input validation on
  `/cart`, no checkout flag, `/payment` always succeeds.
* `MockApi` — the backend bundled with `docker-compose-mock.yml`:
  full validation on `/cart`, `GET`/`DELETE /cart/items`, a
  `global.checkoutCompleted` flag gating `/payment`.

The admin gateway (`management-api/index.js`) and the data-access layer
(`adapter-api/index.js`) are embedded as far as the claims need them.

JavaScript semantics that the handlers rely on (truthiness, `isNaN`,
`parseInt`, `String.prototype.split`) are modelled explicitly below.
The `isNaN` model implements the ECMAScript string-to-number
classification (whitespace trimming, optional sign, decimal mantissa
with optional exponent, `Infinity`, and hex/octal/binary literals);
`parseInt(s, 10)` skips leading whitespace and reads the longest signed
digit prefix.  Digits are read with exact integer arithmetic: JS number
precision loss beyond 2^53 (`Number.MAX_SAFE_INTEGER`) is outside the
model, and the one theorem whose conclusion depends on the parsed value
scopes itself to the exactly-representable range by hypothesis.
-/

namespace TestStore

/-! ## JavaScript value and primitive models -/

/-- A JavaScript value as it can appear in the JSON request bodies the cart
handlers read: an integer number, a string, `NaN` (producible by coercion),
or `undefined` (a missing field). -/
inductive JsVal where
  | int (n : Int)
  | str (s : String)
  | nan
  | undef
deriving DecidableEq, Repr

/-- JavaScript truthiness for the modelled values: `0`, `NaN`, `""` and
`undefined` are falsy. -/
def truthy : JsVal → Bool
  | .int n => n != 0
  | .str s => s != ""
  | .nan => false
  | .undef => false

/-- `Number.isInteger` on the modelled values. -/
def jsIsInteger : JsVal → Bool
  | .int _ => true
  | _ => false

/-- Decimal value of a digit list (most significant first). -/
def decToNat (l : List Char) : Nat :=
  l.foldl (fun a c => a * 10 + (c.toNat - 48)) 0

/-- The whitespace characters JS trims in string-to-number coercion
(ECMAScript StrWhiteSpaceChar: tab, LF, VT, FF, CR, space, NBSP, the
Unicode space separators, line/paragraph separator, BOM). -/
def jsWhitespace (c : Char) : Bool :=
  c = ' ' || c = '\t' || c = '\n' || c = '\r' ||
  c.toNat = 11 || c.toNat = 12 || c.toNat = 0xa0 || c.toNat = 0x1680 ||
  (0x2000 ≤ c.toNat && c.toNat ≤ 0x200a) ||
  c.toNat = 0x2028 || c.toNat = 0x2029 || c.toNat = 0x202f ||
  c.toNat = 0x205f || c.toNat = 0x3000 || c.toNat = 0xfeff

/-- Leading and trailing JS whitespace removed. -/
def jsTrim (l : List Char) : List Char :=
  ((l.dropWhile jsWhitespace).reverse.dropWhile jsWhitespace).reverse

/-- A hexadecimal digit. -/
def isHexDigitJs (c : Char) : Bool :=
  c.isDigit || ('a' ≤ c && c ≤ 'f') || ('A' ≤ c && c ≤ 'F')

/-- A non-empty run of decimal digits. -/
def isDigits (l : List Char) : Bool := l != [] && l.all (·.isDigit)

/-- An optional ECMAScript ExponentPart: empty, or `e`/`E` followed by an
optional sign and at least one digit. -/
def expPart : List Char → Bool
  | [] => true
  | c :: r =>
      (c = 'e' || c = 'E') &&
        (match r with
         | '+' :: d => isDigits d
         | '-' :: d => isDigits d
         | d => isDigits d)

/-- An unsigned decimal mantissa with optional exponent: `digits`,
`digits.digits?` or `.digits`, then an optional ExponentPart. -/
def decMantissaExp (l : List Char) : Bool :=
  match l.span (·.isDigit) with
  | (ds, []) => ds != []
  | (ds, '.' :: rest) =>
      (match rest.span (·.isDigit) with
       | (fs, tail) => (ds != [] || fs != []) && expPart tail)
  | (ds, tail) => ds != [] && expPart tail

/-- An ECMAScript StrDecimalLiteral: optional sign, then `Infinity` or a
decimal mantissa with optional exponent. -/
def strUnsignedDecimal (l : List Char) : Bool :=
  l = "Infinity".data || decMantissaExp l

/-- StrDecimalLiteral with its optional sign. -/
def strDecimalLiteral : List Char → Bool
  | '+' :: r => strUnsignedDecimal r
  | '-' :: r => strUnsignedDecimal r
  | l => strUnsignedDecimal l

/-- An ECMAScript StrNumericLiteral: an (unsigned) hex, octal or binary
integer literal, or a signed decimal literal. -/
def strNumericLiteral : List Char → Bool
  | '0' :: 'x' :: r => r != [] && r.all isHexDigitJs
  | '0' :: 'X' :: r => r != [] && r.all isHexDigitJs
  | '0' :: 'o' :: r => r != [] && r.all (fun c => '0' ≤ c && c ≤ '7')
  | '0' :: 'O' :: r => r != [] && r.all (fun c => '0' ≤ c && c ≤ '7')
  | '0' :: 'b' :: r => r != [] && r.all (fun c => c = '0' || c = '1')
  | '0' :: 'B' :: r => r != [] && r.all (fun c => c = '0' || c = '1')
  | l => strDecimalLiteral l

/-- JS `isNaN(s)` for a string `s`, i.e. whether `Number(s)` is `NaN`:
trim JS whitespace; an empty remainder converts to `0` (not `NaN`); any
other remainder converts to a number exactly when it is a
StrNumericLiteral. -/
def jsIsNaNStr (s : String) : Bool :=
  match jsTrim s.data with
  | [] => false
  | l => !(strNumericLiteral l)

/-- The digits at the front of `l`, or `none` if there are none
(`parseInt` yields `NaN` in that case). -/
def leadingDigits (l : List Char) : Option Nat :=
  match l.takeWhile (·.isDigit) with
  | [] => none
  | ds => some (decToNat ds)

/-- JS `parseInt(s, 10)` (the handlers always pass radix 10, so no hex
prefix is recognized): skip leading JS whitespace, an optional sign,
then the longest digit prefix; no digits is `NaN` (`none`).  The digits
are read with exact integer arithmetic; JS double precision loss beyond
2^53 is outside the model, which is why the coercion theorem bounds the
parsed value by `Number.MAX_SAFE_INTEGER`. -/
def jsParseInt (s : String) : Option Int :=
  match s.data.dropWhile jsWhitespace with
  | '-' :: r => (leadingDigits r).map (fun n => -(n : Int))
  | '+' :: r => (leadingDigits r).map (fun n => (n : Int))
  | l => (leadingDigits l).map (fun n => (n : Int))

/-- The coercion both cart handlers apply to `itemId`/`quantity`:
`if (typeof v === 'string' && !isNaN(v)) v = parseInt(v, 10);`.
A numeric string becomes its parsed integer; `parseInt("")` is `NaN`. -/
def coerceNumericString : JsVal → JsVal
  | .str s =>
      if jsIsNaNStr s then .str s
      else match jsParseInt s with
        | some n => .int n
        | none => .nan
  | v => v

/-- The check `Number.isInteger(v) && v > 0` made by the cart handlers,
returning the integer when it passes. -/
def asPosInt : JsVal → Option Int
  | .int n => if 0 < n then some n else none
  | _ => none

/-- JS `Array.prototype.findIndex`: index of the first element satisfying
the predicate; `none` models the `-1` result. -/
def jsFindIndex (p : α → Bool) : List α → Option Nat
  | [] => none
  | x :: xs => if p x then some 0 else (jsFindIndex p xs).map (· + 1)

/-- JS `String.prototype.split(sep)` (single-character separator),
accumulator-based: `jsSplitAux sep l acc` splits `l`, with `acc` holding
the current piece reversed. -/
def jsSplitAux (sep : Char) : List Char → List Char → List (List Char)
  | [], acc => [acc.reverse]
  | c :: cs, acc =>
      if c = sep then acc.reverse :: jsSplitAux sep cs [] else jsSplitAux sep cs (c :: acc)

/-- JS `s.split(sep)` for a single-character separator. -/
def jsSplit (sep : Char) (s : String) : List String :=
  (jsSplitAux sep s.data []).map (fun l => ⟨l⟩)

/-! ## Token codec (shared by all services)

`generateDynamicToken` in `backend-api`, `management-api` and
`adapter-api`:
`crypto.createHash('sha256').update(username + currentDate + secret).digest('hex')`.
The SHA-256 digest is an external library call; it is modelled as an
abstract string function `hash` threaded through the definitions, so every
property proved below holds for the actual digest function. -/

/-- `generateDynamicToken(username)`: hash of
`username + currentDate + secret` (in that concatenation order), where
`currentDate` is the current calendar date `YYYY-MM-DD` and `secret` is
`process.env.TOKEN_SECRET || 'default_secret'`. -/
def generateDynamicToken (hash : String → String) (secret date username : String) : String :=
  hash (username ++ date ++ secret)

/-! ## Storefront auth middleware -/

/-- Outcome of the storefront auth middleware.  `missing` is the
`401 Missing Authorization or X-User header` response, `invalidToken` the
`403 Invalid or expired token` response, `unavailable` the 500 response
the mock backend produces when the token-verification upstream fails. -/
inductive AuthResult where
  | missing
  | invalidToken
  | unavailable
  | ok (username : String)
deriving DecidableEq, Repr

/-- HTTP status of an auth-middleware outcome (`ok` lets the request
proceed; 200 stands for "not an auth failure"). -/
def authStatus : AuthResult → Nat
  | .missing => 401
  | .invalidToken => 403
  | .unavailable => 500
  | .ok _ => 200

/-- `authMiddleware` of `backend-api/index.js`: requires both the
`Authorization` and `X-User` headers (JS falsiness: an absent or empty
header fails the check), extracts `authHeader.split(' ')[1]` as the
presented token, and compares it with `generateDynamicToken(username)`;
mismatch (including an absent index 1) is the 403 response. -/
def authMiddleware (hash : String → String) (secret date : String)
    (authHeader xUser : Option String) : AuthResult :=
  match authHeader, xUser with
  | some ah, some u =>
      if ah = "" ∨ u = "" then .missing
      else
        match (jsSplit ' ' ah).get? 1 with
        | some t => if t = generateDynamicToken hash secret date u then .ok u else .invalidToken
        | none => .invalidToken
  | _, _ => .missing

/-! ## Mock storefront backend (`docker-compose-mock.yml` bundle)

State: `global.carts` (created lazily by `POST /cart`; `none` models the
`undefined` it has until then) and `global.checkoutCompleted` (initialized
to `{}` at module load; a missing key reads as `undefined`, i.e. `false`).
Per-identity carts are modelled as a total function, since a missing key
reads back as `[]` through the `|| []` defaults in the handlers. -/

namespace MockApi

/-- A stored cart line `{ itemId, quantity }`.  Both handlers only ever
store values that passed the positive-integer validation, so the fields
are integers. -/
structure CartLine where
  itemId : Int
  quantity : Int
deriving DecidableEq, Repr

/-- The mock backend's process-wide mutable state. -/
structure StoreState where
  carts : Option (String → List CartLine)
  checkoutCompleted : String → Bool

/-- State at process start: `global.carts` is still undefined,
`global.checkoutCompleted = {}`. -/
def initialState : StoreState :=
  { carts := none, checkoutCompleted := fun _ => false }

/-- The cart contents observed for an identity: `global.carts` absent or
key absent both read as the empty cart (`|| []`). -/
def cartOf (st : StoreState) (u : String) : List CartLine :=
  match st.carts with
  | none => []
  | some m => m u

/-- The checkout flag observed for an identity (`undefined` reads falsy). -/
def flagOf (st : StoreState) (u : String) : Bool :=
  st.checkoutCompleted u

/-- `global.carts = global.carts || {};` — the map with absent keys
reading as `[]`. -/
def ensureCarts (st : StoreState) : String → List CartLine :=
  match st.carts with
  | none => fun _ => []
  | some m => m

/-- Result of the adapter `GET /items/:id` call made by `POST /cart`:
the item row exists, the adapter answered 404, or the upstream call
failed. -/
inductive ItemLookup where
  | found
  | notFound
  | unavailable
deriving DecidableEq, Repr

/-- Response of `POST /cart`: status, the error body's message when there
is one, and the returned cart on success. -/
structure AddResp where
  status : Nat
  error : Option String
  cart : Option (List CartLine)
deriving DecidableEq, Repr

/-- `POST /cart` of the mock backend, after authentication.  Coerces
numeric strings via `parseInt`, rejects non-positive or non-integer
values with 400, checks item existence against the adapter (404 when the
item does not exist, 500 when the upstream call fails), then appends
`{ itemId, quantity }` to the caller's cart and returns the full cart. -/
def postCart (lookupItem : Int → ItemLookup) (st : StoreState) (u : String)
    (itemId0 quantity0 : JsVal) : AddResp × StoreState :=
  let itemId := coerceNumericString itemId0
  let quantity := coerceNumericString quantity0
  if ¬ truthy itemId ∨ ¬ truthy quantity then
    (⟨400, some "Item ID and quantity are required", none⟩, st)
  else
    match asPosInt itemId with
    | none => (⟨400, some "Invalid item ID, must be a positive integer", none⟩, st)
    | some i =>
      match asPosInt quantity with
      | none => (⟨400, some "Invalid quantity, must be a positive integer", none⟩, st)
      | some q =>
        match lookupItem i with
        | .found =>
            let m := ensureCarts st
            let newCart := m u ++ [⟨i, q⟩]
            (⟨200, none, some newCart⟩,
             { st with carts := some (fun v => if v = u then newCart else m v) })
        | .notFound => (⟨404, some "Item not found", none⟩, st)
        | .unavailable =>
            (⟨500, some "Internal server error while validating item", none⟩, st)

/-- Response of `GET /cart/items`: status and the item list on success. -/
structure ListResp where
  status : Nat
  items : Option (List CartLine)
deriving DecidableEq, Repr

/-- `GET /cart/items` of the mock backend, after authentication.  Reads
`global.carts[req.username] || []` and maps `parseInt` over the stored
fields (the identity on the integers the store holds).  While
`global.carts` is still undefined the property read throws a `TypeError`,
which Express turns into the 500 error response. -/
def getCartItems (st : StoreState) (u : String) : ListResp :=
  match st.carts with
  | none => ⟨500, none⟩
  | some m => ⟨200, some (m u)⟩

/-- Response of `DELETE /cart/items`: status and the deleted line on
success. -/
structure DeleteResp where
  status : Nat
  deletedItem : Option CartLine
deriving DecidableEq, Repr

/-- `DELETE /cart/items` of the mock backend, after authentication.
Coerces/validates `itemId` (400 when not a positive integer), then looks
for the first line with a matching `itemId` (`findIndex`); no match is
the 400 `Item not found in the cart` response; a match is removed with
`splice(idx, 1)` and returned.  As in `getCartItems`, reading
`global.carts[req.username]` while `global.carts` is undefined throws,
producing the 500 error response. -/
def deleteCartItem (st : StoreState) (u : String) (itemId0 : JsVal) :
    DeleteResp × StoreState :=
  let itemId := coerceNumericString itemId0
  match asPosInt itemId with
  | none => (⟨400, none⟩, st)
  | some i =>
    match st.carts with
    | none => (⟨500, none⟩, st)
    | some m =>
      let cart := m u
      match jsFindIndex (fun line => line.itemId = i) cart with
      | none => (⟨400, none⟩, st)
      | some idx =>
          (⟨200, cart.get? idx⟩,
           { st with carts := some (fun v => if v = u then cart.eraseIdx idx else m v) })

/-- `POST /checkout` of the mock backend, after authentication: 400
`Cart is empty` when `global.carts` is undefined, the user has no cart,
or the cart is empty; otherwise empties the cart, sets
`global.checkoutCompleted[username] = true` and succeeds. -/
def postCheckout (st : StoreState) (u : String) : Nat × StoreState :=
  match st.carts with
  | none => (400, st)
  | some m =>
      if m u = [] then (400, st)
      else
        (200,
         { carts := some (fun v => if v = u then [] else m v),
           checkoutCompleted := fun v => if v = u then true else st.checkoutCompleted v })

/-- `POST /payment` of the mock backend, after authentication: 400
`Checkout not completed` when the flag is unset, otherwise resets the
flag and succeeds. -/
def postPayment (st : StoreState) (u : String) : Nat × StoreState :=
  if st.checkoutCompleted u then
    (200, { st with checkoutCompleted := fun v => if v = u then false else st.checkoutCompleted v })
  else (400, st)

/-- Outcome of the adapter `POST /verify-token` call made by the mock
backend's auth middleware (served by WireMock in the mock compose file;
external to this repository's sources). -/
inductive VerifyOutcome where
  | valid
  | invalid
  | unavailable
deriving DecidableEq, Repr

/-- `authMiddleware` of the mock backend: requires both headers (401 when
either is absent or empty), then posts `username` and
`authHeader.split(' ')[1]` to the verification upstream; `valid` lets the
request through, `invalid` is the 403 response, an upstream failure the
500 response. -/
def authMiddlewareMock (verify : String → Option String → VerifyOutcome)
    (authHeader xUser : Option String) : AuthResult :=
  match authHeader, xUser with
  | some ah, some u =>
      if ah = "" ∨ u = "" then .missing
      else
        match verify u ((jsSplit ' ' ah).get? 1) with
        | .valid => .ok u
        | .invalid => .invalidToken
        | .unavailable => .unavailable

  | _, _ => .missing

/-- `POST /cart` with its auth middleware in front (status and state
only). -/
def cartEndpoint (verify : String → Option String → VerifyOutcome)
    (lookupItem : Int → ItemLookup) (authHeader xUser : Option String)
    (itemId0 quantity0 : JsVal) (st : StoreState) : Nat × StoreState :=
  match authMiddlewareMock verify authHeader xUser with
  | .ok u => let (r, st') := postCart lookupItem st u itemId0 quantity0; (r.status, st')
  | a => (authStatus a, st)

/-- `GET /cart/items` with its auth middleware in front. -/
def cartItemsEndpoint (verify : String → Option String → VerifyOutcome)
    (authHeader xUser : Option String) (st : StoreState) : Nat × StoreState :=
  match authMiddlewareMock verify authHeader xUser with
  | .ok u => ((getCartItems st u).status, st)
  | a => (authStatus a, st)

/-- `DELETE /cart/items` with its auth middleware in front. -/
def deleteEndpoint (verify : String → Option String → VerifyOutcome)
    (authHeader xUser : Option String) (itemId0 : JsVal) (st : StoreState) :
    Nat × StoreState :=
  match authMiddlewareMock verify authHeader xUser with
  | .ok u => let (r, st') := deleteCartItem st u itemId0; (r.status, st')
  | a => (authStatus a, st)

/-- `POST /checkout` with its auth middleware in front. -/
def checkoutEndpoint (verify : String → Option String → VerifyOutcome)
    (authHeader xUser : Option String) (st : StoreState) : Nat × StoreState :=
  match authMiddlewareMock verify authHeader xUser with
  | .ok u => postCheckout st u
  | a => (authStatus a, st)

/-- `POST /payment` with its auth middleware in front. -/
def paymentEndpoint (verify : String → Option String → VerifyOutcome)
    (authHeader xUser : Option String) (st : StoreState) : Nat × StoreState :=
  match authMiddlewareMock verify authHeader xUser with
  | .ok u => postPayment st u
  | a => (authStatus a, st)

end MockApi

/-! ## Storefront backend of `backend-api/index.js` (`src/unnamed/part_004`)

This variant validates only truthiness of `itemId`/`quantity` (raw values
are pushed unvalidated), has no `GET`/`DELETE /cart/items`, never touches
a checkout flag, and `POST /payment` succeeds unconditionally. -/

namespace BackendApi

/-- A cart line as this backend stores it: the raw request values. -/
structure LineA where
  itemId : JsVal
  quantity : JsVal
deriving DecidableEq, Repr

/-- This backend's process-wide state: only `global.carts`, again created
lazily by `POST /cart`. -/
structure StateA where
  carts : Option (String → List LineA)

/-- State at process start. -/
def initialState : StateA := { carts := none }

/-- Cart contents observed for an identity. -/
def cartOf (st : StateA) (u : String) : List LineA :=
  match st.carts with
  | none => []
  | some m => m u

/-- `POST /cart` of `backend-api/index.js`, after authentication:
`if (!itemId || !quantity) return 400;` then pushes the raw
`{ itemId, quantity }` — no integer validation, no catalog lookup. -/
def postCart (st : StateA) (u : String) (itemId quantity : JsVal) : Nat × StateA :=
  if ¬ truthy itemId ∨ ¬ truthy quantity then (400, st)
  else
    let m := match st.carts with | none => fun _ => [] | some m => m
    (200, ⟨some (fun v => if v = u then m u ++ [⟨itemId, quantity⟩] else m v)⟩)

/-- `POST /checkout` of `backend-api/index.js`, after authentication:
400 `Cart is empty` when there is no (non-empty) cart, otherwise empties
the cart and succeeds.  No flag is set. -/
def postCheckout (st : StateA) (u : String) : Nat × StateA :=
  match st.carts with
  | none => (400, st)
  | some m =>
      if m u = [] then (400, st)
      else (200, ⟨some (fun v => if v = u then [] else m v)⟩)

/-- `POST /payment` of `backend-api/index.js`, after authentication:
responds `Payment processed successfully (simulated).` unconditionally
and changes no state. -/
def postPayment (st : StateA) (_u : String) : Nat × StateA :=
  (200, st)

end BackendApi

/-! ## Adapter API (`adapter-api/index.js`, `src/unnamed/part_000`) -/

namespace AdapterApi

/-- A row of the `users` table, as far as the middleware needs it. -/
structure UserRec where
  username : String
  role : String
  password : String
deriving DecidableEq, Repr

/-- `POST /user/role` of the adapter: `SELECT role FROM users WHERE
username = $1`; no row is the 404 `User not found` response.  A request
whose body lacks `username` (the admin gateway forwards its `X-User`
header verbatim) binds SQL `NULL`, which matches no row — hence 404. -/
def userRoleEndpoint (users : List UserRec) (username? : Option String) :
    Except Nat String :=
  match username? with
  | none => .error 404
  | some u =>
    match users.find? (fun r => r.username = u) with
    | some r => .ok r.role
    | none => .error 404

/-- The two users documented in the README quick-start table (seeded by
`initializeDatabase`); enough of the seed data for concrete runs. -/
def seedUsers : List UserRec :=
  [⟨"jdoe123", "admin", "jdoe@123"⟩, ⟨"asmith456", "user", "asmith@456"⟩]

end AdapterApi

/-! ## Management API admin middleware (`management-api/index.js`) -/

namespace ManagementApi

/-- Outcome of the admin gateway's global middleware. -/
inductive AdminAuth where
  | missingAuth
  | roleLookupFailed (status : Nat)
  | forbiddenNotAdmin
  | forbiddenInvalidToken
  | ok
deriving DecidableEq, Repr

/-- HTTP status of an admin-middleware outcome (200 stands for "request
proceeds"). -/
def adminStatus : AdminAuth → Nat
  | .missingAuth => 401
  | .roleLookupFailed s => s
  | .forbiddenNotAdmin => 403
  | .forbiddenInvalidToken => 403
  | .ok => 200

/-- JS string coercion of a possibly-undefined value, as it happens in
`username + currentDate + TOKEN_SECRET` when `username` is `undefined`. -/
def jsStringOf : Option String → String
  | none => "undefined"
  | some s => s

/-- The admin auth middleware of `management-api/index.js`: 401 only when
the `Authorization` header is missing (the `X-User` header is **not**
checked); then `POST /user/role` on the adapter (its failure status is
forwarded, 404 as `User not found`); a role other than `admin` is the 403
`Forbidden: Admins only` response; only then is
`authHeader.split(' ')[1]` compared with the derived token (mismatch: 403
`Forbidden: Invalid token`). -/
def adminAuthMiddleware (hash : String → String) (secret date : String)
    (users : List AdapterApi.UserRec) (authHeader xUser : Option String) : AdminAuth :=
  match authHeader with
  | none => .missingAuth
  | some ah =>
    if ah = "" then .missingAuth
    else
      match AdapterApi.userRoleEndpoint users xUser with
      | .error s => .roleLookupFailed s
      | .ok role =>
        if role ≠ "admin" then .forbiddenNotAdmin
        else
          match (jsSplit ' ' ah).get? 1 with
          | some t =>
              if t = generateDynamicToken hash secret date (jsStringOf xUser) then .ok
              else .forbiddenInvalidToken
          | none => .forbiddenInvalidToken

end ManagementApi

/-! ## Concrete data for evaluating the embedded handlers -/

/-- The identity function in place of the abstract SHA-256 digest, for
concrete runs of the token middleware. -/
def idHash : String → String := fun s => s

/-- A constant digest, for concrete runs of the token middleware. -/
def constHash : String → String := fun _ => "746f6b"

/-- A catalog in which every item id exists (the adapter answers 200). -/
def allItemsExist : Int → MockApi.ItemLookup := fun _ => .found

/-- A catalog in which no item id exists (the adapter answers 404). -/
def noItemsExist : Int → MockApi.ItemLookup := fun _ => .notFound

/-- A token-verification upstream that accepts everything. -/
def alwaysValidVerify : String → Option String → MockApi.VerifyOutcome := fun _ _ => .valid

/-- A reachable mock-backend state: `asmith456` has added item 1 with
quantity 2 to an initially empty store. -/
def sampleState : MockApi.StoreState :=
  (MockApi.postCart allItemsExist MockApi.initialState "asmith456" (.int 1) (.int 2)).2

/-- `sampleState` after `asmith456` has checked out. -/
def sampleCheckedOut : MockApi.StoreState :=
  (MockApi.postCheckout sampleState "asmith456").2

/-! ## Helper lemmas -/

/-- Splitting a separator-free list yields a single piece. -/
theorem jsSplitAux_eq_of_no_sep (sep : Char) (l : List Char) (acc : List Char)
    (h : ∀ c ∈ l, c ≠ sep) : jsSplitAux sep l acc = [acc.reverse ++ l] := by
  induction l generalizing acc with
  | nil => simp [jsSplitAux]
  | cons c cs ih =>
      have hc : c ≠ sep := h c (List.mem_cons_self c cs)
      rw [show jsSplitAux sep (c :: cs) acc
            = if c = sep then acc.reverse :: jsSplitAux sep cs []
              else jsSplitAux sep cs (c :: acc) from rfl,
        if_neg hc, ih (c :: acc) (fun x hx => h x (List.mem_cons_of_mem c hx))]
      simp

/-- `("Bearer " ++ t).split(' ')` is `["Bearer", t]` for a space-free
token `t`. -/
theorem jsSplit_bearer (t : String) (h : ∀ c ∈ t.data, c ≠ ' ') :
    jsSplit ' ' ("Bearer " ++ t) = ["Bearer", t] := by
  have hdata : ("Bearer " ++ t).data = 'B' :: 'e' :: 'a' :: 'r' :: 'e' :: 'r' :: ' ' :: t.data := by
    cases t; rfl
  unfold jsSplit
  rw [hdata]
  rw [show jsSplitAux ' ' ('B' :: 'e' :: 'a' :: 'r' :: 'e' :: 'r' :: ' ' :: t.data) []
        = ['B','e','a','r','e','r'] :: jsSplitAux ' ' t.data [] from rfl,
    jsSplitAux_eq_of_no_sep ' ' t.data [] h]
  simp

/-- Overwriting position `i` with a different character changes the
list. -/
theorem set_ne_of_getD_ne {l : List Char} {i : Nat} {c : Char}
    (hi : i < l.length) (hc : c ≠ l.getD i ' ') : l.set i c ≠ l := by
  intro he
  apply hc
  have h2 : (l.set i c).getD i ' ' = l.getD i ' ' := by rw [he]
  rwa [List.getD_eq_getElem _ _ (by simpa using hi), List.getElem_set_self] at h2

/-- The storefront auth middleware on a well-formed `Bearer` header:
accept exactly on token equality, otherwise the 403 outcome. -/
theorem authMiddleware_bearer (hash : String → String) (secret date u t : String)
    (hu : u ≠ "") (ht : ∀ c ∈ t.data, c ≠ ' ') :
    authMiddleware hash secret date (some ("Bearer " ++ t)) (some u)
      = if t = generateDynamicToken hash secret date u then .ok u else .invalidToken := by
  have hne : ("Bearer " ++ t) ≠ "" := by
    intro h0
    have h1 := congrArg String.data h0
    rw [show ("Bearer " ++ t).data = 'B' :: 'e' :: 'a' :: 'r' :: 'e' :: 'r' :: ' ' :: t.data from by
      cases t; rfl] at h1
    simp at h1
  rw [show authMiddleware hash secret date (some ("Bearer " ++ t)) (some u)
        = (if ("Bearer " ++ t) = "" ∨ u = "" then AuthResult.missing
           else
             match (jsSplit ' ' ("Bearer " ++ t)).get? 1 with
             | some tk =>
                 if tk = generateDynamicToken hash secret date u then AuthResult.ok u
                 else AuthResult.invalidToken
             | none => AuthResult.invalidToken) from rfl,
    if_neg (by simp [hne, hu]), jsSplit_bearer t ht]
  rfl

/-- C1: the storefront auth check (`authMiddleware` of
`backend-api/index.js`) succeeds exactly when the presented token equals
`sha256(identity + currentDate + secret)` (`generateDynamicToken`, with
the digest abstract), and a token obtained from the derived token by
changing a single character is rejected with the 403 authorization
failure outcome — never an error outcome. -/
theorem c1_storefront_token_verification
    (hash : String → String) (secret date u t : String)
    (hu : u ≠ "") (ht : ∀ c ∈ t.data, c ≠ ' ') :
    (authMiddleware hash secret date (some ("Bearer " ++ t)) (some u) = .ok u
       ↔ t = generateDynamicToken hash secret date u)
    ∧ (t ≠ generateDynamicToken hash secret date u →
        authMiddleware hash secret date (some ("Bearer " ++ t)) (some u) = .invalidToken)
    ∧ (∀ i : Nat, ∀ c : Char,
        t = generateDynamicToken hash secret date u →
        i < t.data.length → c ≠ ' ' → c ≠ t.data.getD i ' ' →
        authMiddleware hash secret date
            (some ("Bearer " ++ (⟨t.data.set i c⟩ : String))) (some u) = .invalidToken) := by
  refine ⟨?_, ?_, ?_⟩
  · rw [authMiddleware_bearer hash secret date u t hu ht]
    constructor
    · intro h
      by_contra hne
      rw [if_neg hne] at h
      exact AuthResult.noConfusion h
    · intro h
      rw [if_pos h]
  · intro h
    rw [authMiddleware_bearer hash secret date u t hu ht, if_neg h]
  · intro i c htok hi hc hcne
    have hmut : ∀ ch ∈ t.data.set i c, ch ≠ ' ' := by
      intro ch hch
      rcases List.mem_or_eq_of_mem_set hch with h1 | h1
      · exact ht ch h1
      · rw [h1]; exact hc
    rw [authMiddleware_bearer hash secret date u ⟨t.data.set i c⟩ hu hmut,
      if_neg ?_]
    intro heq
    have : t.data.set i c = t.data := by
      have := congrArg String.data heq
      rw [← htok] at this
      exact this
    exact set_ne_of_getD_ne hi hcne this

/-- Witness for C1 at concrete inputs: identity `jdoe123`, a concrete
digest function, and the matching token. -/
theorem c1_storefront_token_verification_witness :
    authMiddleware constHash "mySuperSecretKey" "2026-10-11"
        (some ("Bearer " ++ "746f6b")) (some "jdoe123") = .ok "jdoe123" :=
  ((c1_storefront_token_verification constHash "mySuperSecretKey"
      "2026-10-11" "jdoe123" "746f6b" (by decide) (by decide)).1).mpr rfl

/-- Coercion leaves an integer value unchanged. -/
theorem coerce_int (n : Int) : coerceNumericString (.int n) = .int n := rfl

/-- `asPosInt` on an integer value. -/
theorem asPosInt_int (n : Int) : asPosInt (.int n) = if 0 < n then some n else none := rfl

/-- `cartOf` and `ensureCarts` agree: both read a missing map or key as
the empty cart. -/
theorem cartOf_eq_ensureCarts (st : MockApi.StoreState) (u : String) :
    MockApi.cartOf st u = MockApi.ensureCarts st u := by
  unfold MockApi.cartOf MockApi.ensureCarts
  cases st.carts <;> rfl

/-- Checkout on an empty cart: the 400 response and an unchanged state. -/
theorem checkout_empty_cart (st : MockApi.StoreState) (u : String)
    (h : MockApi.cartOf st u = []) : MockApi.postCheckout st u = (400, st) := by
  unfold MockApi.postCheckout
  cases hc : st.carts with
  | none => rfl
  | some m =>
      have hm : m u = [] := by
        unfold MockApi.cartOf at h
        rw [hc] at h
        exact h
      simp [hm]

/-- Checkout on a non-empty cart: 200, the cart emptied, the flag set,
and every other identity's cart and flag untouched. -/
theorem checkout_nonempty_cart (st : MockApi.StoreState) (u : String)
    (h : MockApi.cartOf st u ≠ []) :
    (MockApi.postCheckout st u).1 = 200
    ∧ MockApi.cartOf (MockApi.postCheckout st u).2 u = []
    ∧ MockApi.flagOf (MockApi.postCheckout st u).2 u = true
    ∧ (MockApi.postCheckout st u).2.carts ≠ none := by
  cases hc : st.carts with
  | none =>
      exact absurd (by unfold MockApi.cartOf; rw [hc]) h
  | some m =>
      have hm : m u ≠ [] := by
        unfold MockApi.cartOf at h
        rw [hc] at h
        exact h
      simp [MockApi.postCheckout, hc, hm, MockApi.cartOf, MockApi.flagOf]

/-- Payment with the flag unset: the 400 response and an unchanged
state. -/
theorem payment_flag_unset (st : MockApi.StoreState) (u : String)
    (h : MockApi.flagOf st u = false) : MockApi.postPayment st u = (400, st) := by
  unfold MockApi.postPayment
  unfold MockApi.flagOf at h
  simp [h]

/-- Payment with the flag set: 200 and the flag cleared. -/
theorem payment_flag_set (st : MockApi.StoreState) (u : String)
    (h : MockApi.flagOf st u = true) :
    (MockApi.postPayment st u).1 = 200
    ∧ MockApi.flagOf (MockApi.postPayment st u).2 u = false := by
  unfold MockApi.postPayment MockApi.flagOf
  unfold MockApi.flagOf at h
  simp [h]

/-- C2: checkout on an empty cart fails with the 400 precondition error
and leaves the whole state unchanged; on a non-empty cart it succeeds,
empties the cart, sets the checkout flag, and a subsequent
`GET /cart/items` for that identity returns the empty sequence. -/
theorem c2_checkout_precondition (st : MockApi.StoreState) (u : String) :
    (MockApi.cartOf st u = [] → MockApi.postCheckout st u = (400, st))
    ∧ (MockApi.cartOf st u ≠ [] →
        (MockApi.postCheckout st u).1 = 200
        ∧ MockApi.cartOf (MockApi.postCheckout st u).2 u = []
        ∧ MockApi.flagOf (MockApi.postCheckout st u).2 u = true
        ∧ MockApi.getCartItems (MockApi.postCheckout st u).2 u = ⟨200, some []⟩) := by
  refine ⟨checkout_empty_cart st u, fun h => ?_⟩
  obtain ⟨h1, h2, h3, h4⟩ := checkout_nonempty_cart st u h
  refine ⟨h1, h2, h3, ?_⟩
  unfold MockApi.getCartItems
  cases hc : (MockApi.postCheckout st u).2.carts with
  | none => exact absurd hc h4
  | some m =>
      have : m u = [] := by
        unfold MockApi.cartOf at h2
        rw [hc] at h2
        exact h2
      simp [this]

/-- Witness for C2: in `sampleState`, the cart of `asmith456` is
non-empty, and checkout behaves as stated. -/
theorem c2_checkout_precondition_witness :
    (MockApi.postCheckout sampleState "asmith456").1 = 200
    ∧ MockApi.cartOf (MockApi.postCheckout sampleState "asmith456").2 "asmith456" = []
    ∧ MockApi.flagOf (MockApi.postCheckout sampleState "asmith456").2 "asmith456" = true
    ∧ MockApi.getCartItems (MockApi.postCheckout sampleState "asmith456").2 "asmith456"
        = ⟨200, some []⟩ :=
  (c2_checkout_precondition sampleState "asmith456").2 (by decide)

/-- C3: payment fails with the 400 precondition error exactly when the
checkout flag is unset (leaving the state unchanged); when the flag is
set it succeeds unconditionally and clears the flag; hence checkout on a
non-empty cart followed by payment succeeds, and an immediately repeated
payment fails again. -/
theorem c3_payment_flag (st : MockApi.StoreState) (u : String) :
    (MockApi.postPayment st u = (400, st) ↔ MockApi.flagOf st u = false)
    ∧ (MockApi.flagOf st u = true →
        (MockApi.postPayment st u).1 = 200
        ∧ MockApi.flagOf (MockApi.postPayment st u).2 u = false)
    ∧ (MockApi.cartOf st u ≠ [] →
        (MockApi.postPayment (MockApi.postCheckout st u).2 u).1 = 200
        ∧ MockApi.postPayment
              (MockApi.postPayment (MockApi.postCheckout st u).2 u).2 u
            = (400, (MockApi.postPayment (MockApi.postCheckout st u).2 u).2)) := by
  refine ⟨⟨?_, payment_flag_unset st u⟩, payment_flag_set st u, fun h => ?_⟩
  · intro h
    cases hf : MockApi.flagOf st u with
    | false => rfl
    | true =>
        have h1 := (payment_flag_set st u hf).1
        rw [h] at h1
        simp at h1
  · have hck := checkout_nonempty_cart st u h
    have hp1 := payment_flag_set (MockApi.postCheckout st u).2 u hck.2.2.1
    exact ⟨hp1.1,
      payment_flag_unset (MockApi.postPayment (MockApi.postCheckout st u).2 u).2 u hp1.2⟩

/-- Witness for C3: from `sampleState` (non-empty cart for `asmith456`),
checkout then payment succeeds and a second payment fails. -/
theorem c3_payment_flag_witness :
    (MockApi.postPayment (MockApi.postCheckout sampleState "asmith456").2 "asmith456").1 = 200
    ∧ MockApi.postPayment
          (MockApi.postPayment
            (MockApi.postCheckout sampleState "asmith456").2 "asmith456").2 "asmith456"
        = (400,
           (MockApi.postPayment
             (MockApi.postCheckout sampleState "asmith456").2 "asmith456").2) :=
  (c3_payment_flag sampleState "asmith456").2.2 (by decide)

/-- `POST /cart` with valid positive-integer arguments and an existing
item: the 200 response carrying the full cart, the line appended at the
end of the caller's cart, every other identity's cart untouched, and all
flags untouched. -/
theorem postCart_int_found (lookup : Int → MockApi.ItemLookup) (st : MockApi.StoreState)
    (u : String) (i q : Int) (hi : 0 < i) (hq : 0 < q) (hl : lookup i = .found) :
    (MockApi.postCart lookup st u (.int i) (.int q)).1
        = ⟨200, none, some (MockApi.cartOf st u ++ [⟨i, q⟩])⟩
    ∧ MockApi.cartOf (MockApi.postCart lookup st u (.int i) (.int q)).2 u
        = MockApi.cartOf st u ++ [⟨i, q⟩]
    ∧ (MockApi.postCart lookup st u (.int i) (.int q)).2.carts ≠ none
    ∧ (∀ v, v ≠ u → MockApi.cartOf (MockApi.postCart lookup st u (.int i) (.int q)).2 v
          = MockApi.cartOf st v)
    ∧ (∀ v, MockApi.flagOf (MockApi.postCart lookup st u (.int i) (.int q)).2 v
          = MockApi.flagOf st v) := by
  have h2 : truthy (.int i) = true := by simp [truthy]; omega
  have h3 : truthy (.int q) = true := by simp [truthy]; omega
  have h4 : asPosInt (.int i) = some i := by simp [asPosInt, hi]
  have h5 : asPosInt (.int q) = some q := by simp [asPosInt, hq]
  unfold MockApi.postCart
  simp only [coerceNumericString, h2, h3, h4, h5, hl, not_true, or_self, if_false,
    Bool.not_eq_true]
  refine ⟨by simp [cartOf_eq_ensureCarts],
    by simp [MockApi.cartOf, cartOf_eq_ensureCarts]
       unfold MockApi.ensureCarts
       cases st.carts <;> rfl,
    by simp, fun v hv => ?_, fun v => ?_⟩
  · simp [MockApi.cartOf, hv, cartOf_eq_ensureCarts]
    unfold MockApi.ensureCarts
    cases st.carts <;> rfl
  · simp [MockApi.flagOf]

/-- C4: a successful add appends its line at the end of the caller's
cart: the response and an immediately following `GET /cart/items` both
return the previous cart with the new line as last element, and adding
the same `itemId` again appends a second distinct line instead of
merging quantities.  (The handlers store and return the validated
integer values, so list responses carry integers by construction.) -/
theorem c4_add_appends (lookup : Int → MockApi.ItemLookup) (st : MockApi.StoreState)
    (u : String) (i q : Int) (hi : 0 < i) (hq : 0 < q) (hl : lookup i = .found) :
    (MockApi.postCart lookup st u (.int i) (.int q)).1
        = ⟨200, none, some (MockApi.cartOf st u ++ [⟨i, q⟩])⟩
    ∧ MockApi.getCartItems (MockApi.postCart lookup st u (.int i) (.int q)).2 u
        = ⟨200, some (MockApi.cartOf st u ++ [⟨i, q⟩])⟩
    ∧ (MockApi.cartOf (MockApi.postCart lookup st u (.int i) (.int q)).2 u).getLast?
        = some ⟨i, q⟩
    ∧ MockApi.cartOf
        (MockApi.postCart lookup
          (MockApi.postCart lookup st u (.int i) (.int q)).2 u (.int i) (.int q)).2 u
        = MockApi.cartOf st u ++ [⟨i, q⟩, ⟨i, q⟩] := by
  obtain ⟨h1, h2, h3, _, _⟩ := postCart_int_found lookup st u i q hi hq hl
  refine ⟨h1, ?_, ?_, ?_⟩
  · unfold MockApi.getCartItems
    cases hc : (MockApi.postCart lookup st u (.int i) (.int q)).2.carts with
    | none => exact absurd hc h3
    | some m =>
        have : m u = MockApi.cartOf st u ++ [⟨i, q⟩] := by
          unfold MockApi.cartOf at h2
          rw [hc] at h2
          exact h2
        simp [this]
  · rw [h2]
    exact List.getLast?_concat _
  · obtain ⟨_, h2', _, _, _⟩ :=
      postCart_int_found lookup (MockApi.postCart lookup st u (.int i) (.int q)).2 u i q hi hq hl
    rw [h2', h2, List.append_assoc]
    rfl

/-- Witness for C4 at item 1, quantity 2, identity `asmith456`, starting
from the empty initial state. -/
theorem c4_add_appends_witness :
    (MockApi.postCart allItemsExist MockApi.initialState "asmith456" (.int 1) (.int 2)).1
        = ⟨200, none, some (MockApi.cartOf MockApi.initialState "asmith456" ++ [⟨1, 2⟩])⟩
    ∧ MockApi.getCartItems
          (MockApi.postCart allItemsExist MockApi.initialState "asmith456"
            (.int 1) (.int 2)).2 "asmith456"
        = ⟨200, some (MockApi.cartOf MockApi.initialState "asmith456" ++ [⟨1, 2⟩])⟩
    ∧ (MockApi.cartOf
          (MockApi.postCart allItemsExist MockApi.initialState "asmith456"
            (.int 1) (.int 2)).2 "asmith456").getLast? = some ⟨1, 2⟩
    ∧ MockApi.cartOf
          (MockApi.postCart allItemsExist
            (MockApi.postCart allItemsExist MockApi.initialState "asmith456"
              (.int 1) (.int 2)).2 "asmith456" (.int 1) (.int 2)).2 "asmith456"
        = MockApi.cartOf MockApi.initialState "asmith456" ++ [⟨1, 2⟩, ⟨1, 2⟩] :=
  c4_add_appends allItemsExist MockApi.initialState "asmith456" 1 2
    (by decide) (by decide) rfl

/-- C6: `add` validates its inputs — a non-numeric string for `itemId`
or `quantity` yields a 400 validation error with the state unchanged and
without consulting the catalog (the result does not depend on the
catalog); a numeric string is coerced and behaves exactly like the
parsed integer (asserted for parsed values up to
`Number.MAX_SAFE_INTEGER` = 2^53 - 1, within which a JS number
represents the integer exactly); a non-existent item yields 404
(distinct from the 400 validation failure) with the state unchanged;
only when both checks pass is the line appended and the full current
cart returned. -/
theorem c6_add_validation (lookup lookup' : Int → MockApi.ItemLookup)
    (st : MockApi.StoreState) (u : String) :
    (∀ s : String, jsIsNaNStr s = true → ∀ q0 : JsVal,
        (MockApi.postCart lookup st u (.str s) q0).1.status = 400
        ∧ (MockApi.postCart lookup st u (.str s) q0).2 = st
        ∧ MockApi.postCart lookup st u (.str s) q0
            = MockApi.postCart lookup' st u (.str s) q0)
    ∧ (∀ i : Int, 0 < i → ∀ s : String, jsIsNaNStr s = true →
        (MockApi.postCart lookup st u (.int i) (.str s)).1.status = 400
        ∧ (MockApi.postCart lookup st u (.int i) (.str s)).2 = st
        ∧ MockApi.postCart lookup st u (.int i) (.str s)
            = MockApi.postCart lookup' st u (.int i) (.str s))
    ∧ (∀ s : String, ∀ n : Int, jsIsNaNStr s = false → jsParseInt s = some n →
        n.natAbs ≤ 9007199254740991 →
        (∀ q0 : JsVal, MockApi.postCart lookup st u (.str s) q0
            = MockApi.postCart lookup st u (.int n) q0)
        ∧ (∀ p0 : JsVal, MockApi.postCart lookup st u p0 (.str s)
            = MockApi.postCart lookup st u p0 (.int n)))
    ∧ (∀ i q : Int, 0 < i → 0 < q → lookup i = .notFound →
        MockApi.postCart lookup st u (.int i) (.int q)
          = (⟨404, some "Item not found", none⟩, st))
    ∧ (∀ i q : Int, 0 < i → 0 < q → lookup i = .found →
        (MockApi.postCart lookup st u (.int i) (.int q)).1
          = ⟨200, none, some (MockApi.cartOf st u ++ [⟨i, q⟩])⟩) := by
  refine ⟨?_, ?_, ?_, ?_, ?_⟩
  · intro s hs q0
    have hne : s ≠ "" := by
      intro h
      subst h
      exact absurd hs (by decide)
    have hco : coerceNumericString (.str s) = .str s := by
      simp [coerceNumericString, hs]
    have htr : truthy (.str s) = true := by simp [truthy, hne]
    unfold MockApi.postCart
    simp only [hco, htr]
    by_cases hq0 : truthy (coerceNumericString q0) = true
    · simp [hq0, asPosInt]
    · simp [hq0]
  · intro i hi s hs
    have hne : s ≠ "" := by
      intro h
      subst h
      exact absurd hs (by decide)
    have hco : coerceNumericString (.str s) = .str s := by
      simp [coerceNumericString, hs]
    have htr : truthy (.str s) = true := by simp [truthy, hne]
    have h2 : truthy (.int i) = true := by simp [truthy]; omega
    unfold MockApi.postCart
    simp only [hco, htr, h2]
    simp [coerce_int, h2, asPosInt_int, hi, asPosInt]
  · intro s n hs hp _hn
    have hco : coerceNumericString (.str s) = .int n := by
      simp [coerceNumericString, hs, hp]
    exact ⟨fun q0 => by simp only [MockApi.postCart, hco, coerce_int],
      fun p0 => by simp only [MockApi.postCart, hco, coerce_int]⟩
  · intro i q hi hq hl
    have h2 : truthy (.int i) = true := by simp [truthy]; omega
    have h3 : truthy (.int q) = true := by simp [truthy]; omega
    unfold MockApi.postCart
    simp [coerce_int, h2, h3, asPosInt_int, hi, hq, hl]
  · intro i q hi hq hl
    exact (postCart_int_found lookup st u i q hi hq hl).1

/-- Witness for C6: non-numeric `itemId` `"abc"` is rejected with 400,
`"12"` is coerced to `12`, a missing catalog item yields 404, and a
valid add returns the appended cart. -/
theorem c6_add_validation_witness :
    (MockApi.postCart allItemsExist MockApi.initialState "asmith456"
        (.str "abc") (.int 1)).1.status = 400
    ∧ MockApi.postCart allItemsExist MockApi.initialState "asmith456" (.str "12") (.int 2)
        = MockApi.postCart allItemsExist MockApi.initialState "asmith456" (.int 12) (.int 2)
    ∧ MockApi.postCart noItemsExist MockApi.initialState "asmith456" (.int 1) (.int 2)
        = (⟨404, some "Item not found", none⟩, MockApi.initialState)
    ∧ (MockApi.postCart allItemsExist MockApi.initialState "asmith456" (.int 1) (.int 2)).1
        = ⟨200, none, some (MockApi.cartOf MockApi.initialState "asmith456" ++ [⟨1, 2⟩])⟩ :=
  ⟨((c6_add_validation allItemsExist allItemsExist MockApi.initialState "asmith456").1
      "abc" (by decide) (.int 1)).1,
   ((c6_add_validation allItemsExist allItemsExist MockApi.initialState "asmith456").2.2.1
      "12" 12 (by decide) (by decide) (by decide)).1 (.int 2),
   (c6_add_validation noItemsExist noItemsExist MockApi.initialState "asmith456").2.2.2.1
      1 2 (by decide) (by decide) rfl,
   (c6_add_validation allItemsExist allItemsExist MockApi.initialState "asmith456").2.2.2.2
      1 2 (by decide) (by decide) rfl⟩

/-- `findIndex` misses when no element satisfies the predicate. -/
theorem jsFindIndex_eq_none {α : Type} {p : α → Bool} {l : List α}
    (h : ∀ x ∈ l, p x = false) : jsFindIndex p l = none := by
  induction l with
  | nil => rfl
  | cons x xs ih =>
      have hx := h x (List.mem_cons_self x xs)
      simp [jsFindIndex, hx, ih (fun y hy => h y (List.mem_cons_of_mem x hy))]

/-- `findIndex` finds the first satisfying element. -/
theorem jsFindIndex_append_cons {α : Type} {p : α → Bool} (pre : List α) (x : α)
    (post : List α) (hpre : ∀ y ∈ pre, p y = false) (hx : p x = true) :
    jsFindIndex p (pre ++ x :: post) = some pre.length := by
  induction pre with
  | nil => simp [jsFindIndex, hx]
  | cons a as ih =>
      have ha := hpre a (List.mem_cons_self a as)
      simp [jsFindIndex, ha, ih (fun y hy => hpre y (List.mem_cons_of_mem a hy))]

/-- `splice(idx, 1)` at the index of the head of the suffix removes
exactly that element. -/
theorem eraseIdx_append_cons {α : Type} (pre : List α) (x : α) (post : List α) :
    (pre ++ x :: post).eraseIdx pre.length = pre ++ post := by
  induction pre with
  | nil => rfl
  | cons a as ih => simp [List.eraseIdx, ih]

/-- Indexing at the length of the prefix yields the head of the suffix. -/
theorem get?_append_cons {α : Type} (pre : List α) (x : α) (post : List α) :
    (pre ++ x :: post).get? pre.length = some x := by
  induction pre with
  | nil => rfl
  | cons a as ih => simpa using ih

/-- C5 (amended): `remove` deletes only the first line whose `itemId`
matches — the lines before it and every line after it (matching or not)
survive verbatim — and returns the removed line; when no line matches
and the process-wide carts map exists, it responds 400 and leaves the
state unchanged; while the carts map is still uninitialized (no add has
happened since process start) a remove with a valid item id responds
500, also leaving the state unchanged. -/
theorem c5_remove_first_match (st : MockApi.StoreState) (u : String) (i : Int)
    (hi : 0 < i) :
    (st.carts = none →
        MockApi.deleteCartItem st u (.int i) = (⟨500, none⟩, st))
    ∧ (st.carts ≠ none → (∀ line ∈ MockApi.cartOf st u, line.itemId ≠ i) →
        MockApi.deleteCartItem st u (.int i) = (⟨400, none⟩, st))
    ∧ (∀ pre line post,
        MockApi.cartOf st u = pre ++ line :: post →
        (∀ l' ∈ pre, l'.itemId ≠ i) → line.itemId = i →
        (MockApi.deleteCartItem st u (.int i)).1 = ⟨200, some line⟩
        ∧ MockApi.cartOf (MockApi.deleteCartItem st u (.int i)).2 u = pre ++ post
        ∧ (∀ v, v ≠ u → MockApi.cartOf (MockApi.deleteCartItem st u (.int i)).2 v
              = MockApi.cartOf st v)) := by
  have hA : asPosInt (coerceNumericString (.int i)) = some i := by
    simp [coerce_int, asPosInt_int, hi]
  refine ⟨?_, ?_, ?_⟩
  · intro hc
    unfold MockApi.deleteCartItem
    simp only [hA, hc]
  · intro hc hnone
    cases hcs : st.carts with
    | none => exact absurd hcs hc
    | some m =>
        have hm : ∀ line ∈ m u, line.itemId ≠ i := by
          intro line hline
          apply hnone
          unfold MockApi.cartOf
          rw [hcs]
          exact hline
        have hfind : jsFindIndex (fun line => line.itemId = i) (m u) = none :=
          jsFindIndex_eq_none (fun y hy => by simpa using hm y hy)
        unfold MockApi.deleteCartItem
        simp only [hA, hcs, hfind]
  · intro pre line post hcart hpre hline
    cases hcs : st.carts with
    | none =>
        exfalso
        unfold MockApi.cartOf at hcart
        rw [hcs] at hcart
        exact absurd hcart.symm (List.append_ne_nil_of_right_ne_nil pre (by simp))
    | some m =>
        have hm : m u = pre ++ line :: post := by
          unfold MockApi.cartOf at hcart
          rw [hcs] at hcart
          exact hcart
        have hfind : jsFindIndex (fun l' => l'.itemId = i) (m u) = some pre.length := by
          rw [hm]
          exact jsFindIndex_append_cons pre line post
            (fun y hy => by simpa using hpre y hy) (by simpa using hline)
        unfold MockApi.deleteCartItem
        simp only [hA, hcs, hfind]
        refine ⟨by rw [hm, get?_append_cons], ?_, ?_⟩
        · simp only [MockApi.cartOf]
          simp [hm, eraseIdx_append_cons]
        · intro v hv
          simp only [MockApi.cartOf, hcs]
          simp [hv]

/-- C5 counterexample: on a fresh process (`global.carts` still
undefined because no add has happened), removing from the — empty — cart
of `asmith456` with a valid item id responds 500, not a 400-class client
error as the claim states. -/
theorem c5_remove_counterexample :
    MockApi.cartOf MockApi.initialState "asmith456" = []
    ∧ (MockApi.deleteCartItem MockApi.initialState "asmith456" (.int 1)).1.status = 500
    ∧ (MockApi.deleteCartItem MockApi.initialState "asmith456" (.int 1)).2
        = MockApi.initialState :=
  ⟨rfl, rfl, rfl⟩

/-- Witness for C5 (amended) in `sampleState`: removing item 1 from the
cart `[⟨1, 2⟩]` of `asmith456` returns the line and empties the cart. -/
theorem c5_remove_first_match_witness :
    (MockApi.deleteCartItem sampleState "asmith456" (.int 1)).1 = ⟨200, some ⟨1, 2⟩⟩
    ∧ MockApi.cartOf
        (MockApi.deleteCartItem sampleState "asmith456" (.int 1)).2 "asmith456" = [] := by
  have h := (c5_remove_first_match sampleState "asmith456" 1 (by decide)).2.2
      [] ⟨1, 2⟩ [] (by decide) (by simp) (by decide)
  exact ⟨h.1, by simpa using h.2.1⟩

/-- The mock storefront auth middleware answers the 401 `missing`
outcome whenever either header is absent or empty. -/
theorem authMiddlewareMock_missing (verify : String → Option String → MockApi.VerifyOutcome)
    (authHeader xUser : Option String)
    (h : authHeader = none ∨ authHeader = some "" ∨ xUser = none ∨ xUser = some "") :
    MockApi.authMiddlewareMock verify authHeader xUser = .missing := by
  rcases h with h | h | h | h
  · subst h
    cases xUser <;> rfl
  · subst h
    cases xUser with
    | none => rfl
    | some u => simp [MockApi.authMiddlewareMock]
  · subst h
    cases authHeader <;> rfl
  · subst h
    cases authHeader with
    | none => rfl
    | some ah => simp [MockApi.authMiddlewareMock]

/-- C7 (amended): the storefront requires both the authorization header
and the identity header — a request missing or blanking either one is
answered 401 by every cart/checkout/payment endpoint with the state
untouched, before any token verification or cart access; the admin
gateway answers 401 only when the `Authorization` header is missing —
when only the identity header is missing it does consult the role store
(with no username) and returns the store's 404 failure instead of 401. -/
theorem c7_header_requirements
    (verify : String → Option String → MockApi.VerifyOutcome)
    (lookup : Int → MockApi.ItemLookup)
    (hash : String → String) (secret date : String)
    (users : List AdapterApi.UserRec)
    (authHeader xUser : Option String) (itemId0 quantity0 : JsVal)
    (st : MockApi.StoreState)
    (h : authHeader = none ∨ authHeader = some "" ∨ xUser = none ∨ xUser = some "") :
    MockApi.cartEndpoint verify lookup authHeader xUser itemId0 quantity0 st = (401, st)
    ∧ MockApi.cartItemsEndpoint verify authHeader xUser st = (401, st)
    ∧ MockApi.deleteEndpoint verify authHeader xUser itemId0 st = (401, st)
    ∧ MockApi.checkoutEndpoint verify authHeader xUser st = (401, st)
    ∧ MockApi.paymentEndpoint verify authHeader xUser st = (401, st)
    ∧ ManagementApi.adminAuthMiddleware hash secret date users none xUser = .missingAuth
    ∧ (∀ ah : String, ah ≠ "" →
        ManagementApi.adminAuthMiddleware hash secret date users (some ah) none
          = .roleLookupFailed 404) := by
  have hm := authMiddlewareMock_missing verify authHeader xUser h
  refine ⟨?_, ?_, ?_, ?_, ?_, rfl, ?_⟩
  · simp [MockApi.cartEndpoint, hm, authStatus]
  · simp [MockApi.cartItemsEndpoint, hm, authStatus]
  · simp [MockApi.deleteEndpoint, hm, authStatus]
  · simp [MockApi.checkoutEndpoint, hm, authStatus]
  · simp [MockApi.paymentEndpoint, hm, authStatus]
  · intro ah hne
    simp [ManagementApi.adminAuthMiddleware, hne, AdapterApi.userRoleEndpoint]

/-- Witness for C7 (amended): a request with a token but no identity
header, against `sampleState`. -/
theorem c7_header_requirements_witness :
    MockApi.cartEndpoint alwaysValidVerify allItemsExist (some "Bearer t") none
        (.int 1) (.int 2) sampleState = (401, sampleState)
    ∧ MockApi.checkoutEndpoint alwaysValidVerify (some "Bearer t") none sampleState
        = (401, sampleState)
    ∧ ManagementApi.adminAuthMiddleware idHash "mySuperSecretKey" "2026-10-11"
        AdapterApi.seedUsers none (some "jdoe123") = .missingAuth := by
  have h := c7_header_requirements alwaysValidVerify allItemsExist idHash
    "mySuperSecretKey" "2026-10-11" AdapterApi.seedUsers (some "Bearer t") none
    (.int 1) (.int 2) sampleState (by simp)
  exact ⟨h.1, h.2.2.2.1,
    (c7_header_requirements alwaysValidVerify allItemsExist idHash
      "mySuperSecretKey" "2026-10-11" AdapterApi.seedUsers none (some "jdoe123")
      (.int 1) (.int 2) sampleState (by simp)).2.2.2.2.2.1⟩

/-- C7 counterexample: an admin request presenting an authorization
header but no identity header is not answered 401 — the role store is
consulted (with no username bound) and its 404 failure is returned. -/
theorem c7_admin_counterexample :
    ManagementApi.adminAuthMiddleware idHash "mySuperSecretKey" "2026-10-11"
        AdapterApi.seedUsers (some "Bearer deadbeef") none
      = .roleLookupFailed 404
    ∧ ManagementApi.adminStatus
        (ManagementApi.adminAuthMiddleware idHash "mySuperSecretKey" "2026-10-11"
          AdapterApi.seedUsers (some "Bearer deadbeef") none) ≠ 401 :=
  ⟨rfl, by decide⟩

/-- C8: in the admin gateway the role check precedes the token check —
whenever the role store reports a role other than `admin` for the
request's identity, the middleware answers the 403 `Forbidden: Admins
only` outcome, whatever token the authorization header carries. -/
theorem c8_role_before_token (hash : String → String) (secret date : String)
    (users : List AdapterApi.UserRec) (ah : String) (xUser : Option String)
    (r : String) (hne : ah ≠ "")
    (hrole : AdapterApi.userRoleEndpoint users xUser = .ok r) (hr : r ≠ "admin") :
    ManagementApi.adminAuthMiddleware hash secret date users (some ah) xUser
      = .forbiddenNotAdmin := by
  simp [ManagementApi.adminAuthMiddleware, hne, hrole, hr]

/-- Witness for C8: `asmith456` (role `user`) presenting exactly the
token the gateway itself would derive is still answered `Forbidden:
Admins only`. -/
theorem c8_role_before_token_witness :
    ManagementApi.adminAuthMiddleware idHash "mySuperSecretKey" "2026-10-11"
        AdapterApi.seedUsers
        (some ("Bearer " ++
          generateDynamicToken idHash "mySuperSecretKey" "2026-10-11" "asmith456"))
        (some "asmith456")
      = .forbiddenNotAdmin :=
  c8_role_before_token idHash "mySuperSecretKey" "2026-10-11" AdapterApi.seedUsers
    _ (some "asmith456") "user" (by decide) rfl (by decide)

/-- C9 counterexample: the two storefront backends are not
observationally equivalent — from their respective initial states, the
authenticated request `POST /payment` (no prior checkout) succeeds with
200 in `backend-api/index.js` but fails with the 400 precondition error
in the mock backend. -/
theorem c9_backends_diverge :
    (BackendApi.postPayment BackendApi.initialState "asmith456").1 = 200
    ∧ (MockApi.postPayment MockApi.initialState "asmith456").1 = 400 :=
  ⟨rfl, rfl⟩

/-- C9 (amended): the two storefront backends agree on checkout — both
fail with 400 exactly on an empty cart and succeed otherwise, and in
both the caller's cart is empty afterwards (emptied on success,
unchanged-and-empty on failure) — but they are not observationally
equivalent: `backend-api`'s payment succeeds unconditionally while the
mock's succeeds exactly when the checkout flag is set; `backend-api`
accepts a non-numeric `itemId` (and never consults the catalog) where
the mock answers 400, and it accepts an item the catalog does not know
where the mock answers 404. -/
theorem c9_checkout_agrees_payment_diverges (stA : BackendApi.StateA)
    (stM : MockApi.StoreState) (u : String) :
    ((BackendApi.postCheckout stA u).1 = if BackendApi.cartOf stA u = [] then 400 else 200)
    ∧ ((MockApi.postCheckout stM u).1 = if MockApi.cartOf stM u = [] then 400 else 200)
    ∧ BackendApi.cartOf (BackendApi.postCheckout stA u).2 u = []
    ∧ MockApi.cartOf (MockApi.postCheckout stM u).2 u = []
    ∧ (BackendApi.postPayment stA u).1 = 200
    ∧ ((MockApi.postPayment stM u).1 = if MockApi.flagOf stM u then 200 else 400)
    ∧ (BackendApi.postCart stA u (.str "abc") (.int 1)).1 = 200
    ∧ (MockApi.postCart allItemsExist stM u (.str "abc") (.int 1)).1.status = 400
    ∧ (BackendApi.postCart stA u (.int 1) (.int 1)).1 = 200
    ∧ (MockApi.postCart noItemsExist stM u (.int 1) (.int 1)).1.status = 404 := by
  refine ⟨?_, ?_, ?_, ?_, rfl, ?_, ?_, ?_, ?_, ?_⟩
  · unfold BackendApi.postCheckout BackendApi.cartOf
    cases stA.carts with
    | none => simp
    | some m => by_cases h : m u = [] <;> simp [h]
  · by_cases h : MockApi.cartOf stM u = []
    · rw [checkout_empty_cart stM u h]
      simp [h]
    · rw [(checkout_nonempty_cart stM u h).1]
      simp [h]
  · unfold BackendApi.postCheckout
    cases hc : stA.carts with
    | none => simp [BackendApi.cartOf, hc]
    | some m =>
        by_cases h : m u = []
        · simp [h, BackendApi.cartOf, hc]
        · simp [h, BackendApi.cartOf]
  · by_cases h : MockApi.cartOf stM u = []
    · rw [checkout_empty_cart stM u h]
      exact h
    · exact (checkout_nonempty_cart stM u h).2.1
  · unfold MockApi.postPayment MockApi.flagOf
    by_cases h : stM.checkoutCompleted u <;> simp [h]
  · have h1 : truthy (.str "abc") = true := by decide
    have h2 : truthy (.int 1) = true := by decide
    unfold BackendApi.postCart
    simp [h1, h2]
  · have h1 : coerceNumericString (.str "abc") = .str "abc" := by decide
    have h2 : truthy (.str "abc") = true := by decide
    have h3 : truthy (.int 1) = true := by decide
    have h4 : asPosInt (.str "abc") = none := rfl
    unfold MockApi.postCart
    simp [h1, h2, h3, h4, coerce_int]
  · have h2 : truthy (.int 1) = true := by decide
    unfold BackendApi.postCart
    simp [h2]
  · have h2 : truthy (.int 1) = true := by decide
    have h4 : asPosInt (.int 1) = some 1 := by decide
    unfold MockApi.postCart
    simp [h2, h4, coerce_int, noItemsExist]

/-- C10: the per-identity frame property of the mock backend — an add,
remove, checkout or payment performed for identity `u`, successful or
not, leaves the observed cart contents and checkout flag of every other
identity `v` unchanged. -/
theorem c10_per_identity_frame (lookup : Int → MockApi.ItemLookup)
    (st : MockApi.StoreState) (u v : String) (itemId0 quantity0 : JsVal)
    (hv : v ≠ u) :
    (MockApi.cartOf (MockApi.postCart lookup st u itemId0 quantity0).2 v
        = MockApi.cartOf st v
      ∧ MockApi.flagOf (MockApi.postCart lookup st u itemId0 quantity0).2 v
        = MockApi.flagOf st v)
    ∧ (MockApi.cartOf (MockApi.deleteCartItem st u itemId0).2 v = MockApi.cartOf st v
      ∧ MockApi.flagOf (MockApi.deleteCartItem st u itemId0).2 v = MockApi.flagOf st v)
    ∧ (MockApi.cartOf (MockApi.postCheckout st u).2 v = MockApi.cartOf st v
      ∧ MockApi.flagOf (MockApi.postCheckout st u).2 v = MockApi.flagOf st v)
    ∧ (MockApi.cartOf (MockApi.postPayment st u).2 v = MockApi.cartOf st v
      ∧ MockApi.flagOf (MockApi.postPayment st u).2 v = MockApi.flagOf st v) := by
  refine ⟨?_, ?_, ?_, ?_⟩
  · unfold MockApi.postCart
    dsimp only
    split
    · exact ⟨rfl, rfl⟩
    · split
      · exact ⟨rfl, rfl⟩
      · split
        · exact ⟨rfl, rfl⟩
        · split
          · constructor
            · simp [MockApi.cartOf, hv, cartOf_eq_ensureCarts]
              unfold MockApi.ensureCarts
              cases st.carts <;> rfl
            · simp [MockApi.flagOf]
          · exact ⟨rfl, rfl⟩
          · exact ⟨rfl, rfl⟩
  · unfold MockApi.deleteCartItem
    dsimp only
    split
    · exact ⟨rfl, rfl⟩
    · split
      · exact ⟨rfl, rfl⟩
      · next m hcs =>
          split
          · exact ⟨rfl, rfl⟩
          · next idx hfind =>
              constructor
              · simp [MockApi.cartOf, hv, hcs]
              · simp [MockApi.flagOf]
  · unfold MockApi.postCheckout
    split
    · exact ⟨rfl, rfl⟩
    · next m hcs =>
        split
        · exact ⟨rfl, rfl⟩
        · constructor
          · simp [MockApi.cartOf, hv, hcs]
          · simp [MockApi.flagOf, hv]
  · unfold MockApi.postPayment
    split
    · constructor
      · unfold MockApi.cartOf
        rfl
      · simp [MockApi.flagOf, hv]
    · exact ⟨rfl, rfl⟩

/-- Witness for C10: an add by `asmith456` leaves the cart and flag of
`jdoe123` unchanged (similarly for the other operations). -/
theorem c10_per_identity_frame_witness :
    MockApi.cartOf
        (MockApi.postCart allItemsExist sampleState "asmith456" (.int 1) (.int 2)).2 "jdoe123"
      = MockApi.cartOf sampleState "jdoe123"
    ∧ MockApi.flagOf (MockApi.postCheckout sampleState "asmith456").2 "jdoe123"
      = MockApi.flagOf sampleState "jdoe123" :=
  ⟨(c10_per_identity_frame allItemsExist sampleState "asmith456" "jdoe123"
      (.int 1) (.int 2) (by decide)).1.1,
   (c10_per_identity_frame allItemsExist sampleState "asmith456" "jdoe123"
      (.int 1) (.int 2) (by decide)).2.2.1.2⟩

end TestStore
